import Mathlib

/-!
Shallow embedding of the offline-first task sync service
(`taskService.ts`, `syncService.ts`, `routes/tasks.ts`, `routes/sync.ts`).

Modelling conventions:
* SQLite tables are Lean lists kept in rowid (insertion) order; `db.get`
  of a `SELECT ... WHERE` query is `List.find?` (first matching row),
  `db.all` without `ORDER BY` returns the list itself, and
  `SELECT * FROM sync_queue ORDER BY created_at` is a stable sort on the
  `created_at` column over insertion order (`List.insertionSort`).
* Timestamps (ISO strings in the store) are `Nat`; their `≤` mirrors
  chronological order of the ISO strings.
* Booleans stored as 0/1 integers are native `Bool` here; the
  `completed === 1` conversions in the source are exactly this
  persistence boundary.
* The serialized JSON `data` payload column of `sync_queue` is written by
  the services but never read back by any code under verification (only
  the external batch endpoint reads it), so it is not modelled.
* `axios.post` of a batch is an abstract transport function returning
  `Except String BatchSyncResponse`; `Except.error` is a thrown
  transport-level failure.
-/

namespace TaskSync

/-- A row of the `tasks` table (the `Task` interface). -/
structure Task where
  id : String
  title : String
  description : Option String
  completed : Bool
  created_at : Nat
  updated_at : Nat
  is_deleted : Bool
  sync_status : String
  server_id : Option String
  last_synced_at : Option Nat
deriving Repr, DecidableEq

/-- A row of the `sync_queue` table (the `SyncQueueItem` interface);
the opaque serialized payload column is omitted (never read by the code
under verification). -/
structure SyncQueueItem where
  id : String
  task_id : String
  operation : String
  created_at : Nat
  retry_count : Nat
  error_message : Option String
deriving Repr, DecidableEq

/-- The SQLite database state: both tables, each in rowid order. -/
structure DB where
  tasks : List Task
  sync_queue : List SyncQueueItem
deriving Repr, DecidableEq

/-- The `resolved_data` carried by a processed batch item
(a `Partial<Task>` in the source: only the fields the client reads). -/
structure ResolvedData where
  title : String
  description : Option String
  completed : Bool
  updated_at : Nat
  server_id : Option String
deriving Repr, DecidableEq

/-- One element of `BatchSyncResponse.processed_items`. -/
structure ProcessedItem where
  client_id : String
  server_id : Option String
  status : String
  resolved_data : Option ResolvedData
  error : Option String
deriving Repr, DecidableEq

/-- The server's reply to a batch post. -/
structure BatchSyncResponse where
  processed_items : List ProcessedItem
deriving Repr, DecidableEq

/-- One entry of the `errors` array built by `SyncService.sync`. -/
structure SyncError where
  task_id : String
  operation : String
  error : String
  timestamp : Nat
deriving Repr, DecidableEq

/-- The `SyncResult` summary returned by `SyncService.sync`. -/
structure SyncResult where
  success : Bool
  synced_items : Nat
  failed_items : Nat
  errors : List SyncError
deriving Repr, DecidableEq

/-! ## TaskService (`taskService.ts`) -/

/-- The `Partial<Task>` argument of `updateTask` as produced by the PUT
route: optional title, description and completed fields. -/
structure TaskUpdates where
  title : Option String
  description : Option String
  completed : Option Bool
deriving Repr, DecidableEq

/-- `getTask`: `SELECT * FROM tasks WHERE id = ?`, then null when absent
or `is_deleted` is set. -/
def getTask (db : DB) (i : String) : Option Task :=
  match db.tasks.find? (fun t => t.id == i) with
  | none => none
  | some t => if t.is_deleted then none else some t

/-- `getAllTasks`: `SELECT * FROM tasks WHERE is_deleted = 0`. -/
def getAllTasks (db : DB) : List Task :=
  db.tasks.filter (fun t => !t.is_deleted)

/-- `updateTask`: looks up a non-deleted row by id; absent ⇒ `null` and no
write; present ⇒ overwrite title/description/completed, stamp
`updated_at`, set `sync_status` to pending, and append an update item to
`sync_queue`. `now` is `new Date()`, `qid` the fresh uuid. -/
def updateTask (db : DB) (i : String) (u : TaskUpdates) (now : Nat)
    (qid : String) : Option Task × DB :=
  match db.tasks.find? (fun t => t.id == i && !t.is_deleted) with
  | none => (none, db)
  | some t =>
    let t1 : Task :=
      { t with
        title := u.title.getD t.title
        description := match u.description with
          | some d => some d
          | none => t.description
        completed := u.completed.getD t.completed
        updated_at := now
        sync_status := "pending" }
    let tasks1 := db.tasks.map (fun r =>
      if r.id == i then
        { r with title := t1.title, description := t1.description,
                 completed := t1.completed, updated_at := now,
                 sync_status := "pending" }
      else r)
    let q : SyncQueueItem :=
      { id := qid, task_id := i, operation := "update",
        created_at := now, retry_count := 0, error_message := none }
    (some t1, { tasks := tasks1, sync_queue := db.sync_queue ++ [q] })

/-- `deleteTask`: looks up a non-deleted row by id; absent ⇒ `false` and
no write; present ⇒ soft delete (set the flag, stamp `updated_at`, set
`sync_status` to pending) and append a delete item to `sync_queue`. -/
def deleteTask (db : DB) (i : String) (now : Nat) (qid : String) :
    Bool × DB :=
  match db.tasks.find? (fun t => t.id == i && !t.is_deleted) with
  | none => (false, db)
  | some _ =>
    let tasks1 := db.tasks.map (fun r =>
      if r.id == i then
        { r with is_deleted := true, updated_at := now,
                 sync_status := "pending" }
      else r)
    let q : SyncQueueItem :=
      { id := qid, task_id := i, operation := "delete",
        created_at := now, retry_count := 0, error_message := none }
    (true, { tasks := tasks1, sync_queue := db.sync_queue ++ [q] })

/-! ## SyncService (`syncService.ts`) -/

/-- Ordering used by `ORDER BY created_at`. -/
def leByCreated (a b : SyncQueueItem) : Prop :=
  a.created_at ≤ b.created_at

instance : DecidableRel leByCreated :=
  fun a b => inferInstanceAs (Decidable (a.created_at ≤ b.created_at))

instance : IsTotal SyncQueueItem leByCreated :=
  ⟨fun a b => Nat.le_total a.created_at b.created_at⟩

instance : IsTrans SyncQueueItem leByCreated :=
  ⟨fun _ _ _ h1 h2 => Nat.le_trans h1 h2⟩

/-- Step 1 of `sync`:
`SELECT * FROM sync_queue ORDER BY created_at` — a stable sort of the
queue on the enqueue timestamp (rows are neither removed nor changed). -/
def drain (db : DB) : List SyncQueueItem :=
  List.insertionSort leByCreated db.sync_queue

/-- Fuel-bounded body of the batching loop
`for (i = 0; i < items.length; i += batchSize) push(items.slice(i, i + batchSize))`.
The fuel (the list length) bounds the iteration count; for a positive
batch size it makes every loop iteration, exactly as the source does. -/
def chunksAux (n : Nat) : Nat → List SyncQueueItem → List (List SyncQueueItem)
  | 0, _ => []
  | _, [] => []
  | fuel + 1, x :: xs => (x :: xs).take n :: chunksAux n fuel ((x :: xs).drop n)

/-- Step 2 of `sync`: group the drained queue into batches of size `n`. -/
def chunks (n : Nat) (l : List SyncQueueItem) : List (List SyncQueueItem) :=
  chunksAux n l.length l

/-- The conflict-resolution writes of `processBatch` (its step 4): for
every processed item with status `conflict` carrying `resolved_data`,
`UPDATE tasks SET title = ?, description = ?, completed = ?, updated_at = ?, server_id = ? WHERE id = ?`. -/
def applyConflicts (db : DB) (resp : BatchSyncResponse) : DB :=
  resp.processed_items.foldl
    (fun d pi =>
      if pi.status == "conflict" then
        match pi.resolved_data with
        | some rd =>
          { d with tasks := d.tasks.map (fun t =>
              if t.id == pi.client_id then
                { t with title := rd.title, description := rd.description,
                         completed := rd.completed,
                         updated_at := rd.updated_at,
                         server_id := pi.server_id }
              else t) }
        | none => d
      else d)
    db

/-- `updateSyncStatus`: stamp `sync_status` and `last_synced_at` on the
task row; copy `server_id` when the server data carries one; and — only
when the status is `synced` — `DELETE FROM sync_queue WHERE task_id = ?`. -/
def updateSyncStatus (db : DB) (taskId : String) (status : String)
    (serverData : Option ResolvedData) (now : Nat) : DB :=
  let tasks1 := db.tasks.map (fun t =>
    if t.id == taskId then
      { t with sync_status := status, last_synced_at := some now }
    else t)
  let tasks2 :=
    match serverData with
    | some sd =>
      match sd.server_id with
      | some sid => tasks1.map (fun t =>
          if t.id == taskId then { t with server_id := some sid } else t)
      | none => tasks1
    | none => tasks1
  let queue1 :=
    if status == "synced" then
      db.sync_queue.filter (fun q => !(q.task_id == taskId))
    else db.sync_queue
  { tasks := tasks2, sync_queue := queue1 }

/-- `handleSyncError`: bump the item's `retry_count`, store the error
message on the queue row, and when the new count reaches 3, run
`UPDATE tasks SET sync_status = 'error' WHERE id = ?` on the record. -/
def handleSyncError (db : DB) (item : SyncQueueItem) (err : String) : DB :=
  let newRetryCount := item.retry_count + 1
  let queue1 := db.sync_queue.map (fun q =>
    if q.id == item.id then
      { q with retry_count := newRetryCount, error_message := some err }
    else q)
  let tasks1 :=
    if 3 ≤ newRetryCount then
      db.tasks.map (fun t =>
        if t.id == item.task_id then { t with sync_status := "error" } else t)
    else db.tasks
  { tasks := tasks1, sync_queue := queue1 }

/-- Accumulator of the batch loop in `sync`: the evolving database plus
the `syncedItems`, `failedItems` and `errors` locals. -/
structure SyncAccum where
  db : DB
  synced : Nat
  failed : Nat
  errors : List SyncError
deriving Repr, DecidableEq

/-- One iteration of `for (processedItem of batchResponse.processed_items)`
inside `sync`: `success` ⇒ count it synced and `updateSyncStatus(..., 'synced', resolved_data)`;
anything else ⇒ count it failed, push an error entry (operation looked up
in the batch, defaulting to unknown) and `updateSyncStatus(..., 'error')`. -/
def handleOutcome (now : Nat) (batch : List SyncQueueItem)
    (acc : SyncAccum) (pi : ProcessedItem) : SyncAccum :=
  if pi.status == "success" then
    { acc with
      synced := acc.synced + 1
      db := updateSyncStatus acc.db pi.client_id "synced" pi.resolved_data now }
  else
    { acc with
      failed := acc.failed + 1
      errors := acc.errors ++
        [{ task_id := pi.client_id
           operation :=
             ((batch.find? (fun it => it.task_id == pi.client_id)).map
               (fun it => it.operation)).getD "unknown"
           error := pi.error.getD "Unknown error"
           timestamp := now }]
      db := updateSyncStatus acc.db pi.client_id "error" none now }

/-- One iteration of `for (item of batch)` in the catch branch of `sync`:
route the item through `handleSyncError` and push an error entry. -/
def failStep (now : Nat) (e : String) (a : SyncAccum)
    (item : SyncQueueItem) : SyncAccum :=
  { a with
    db := handleSyncError a.db item e
    errors := a.errors ++
      [{ task_id := item.task_id, operation := item.operation,
         error := e, timestamp := now }] }

/-- One iteration of `for (batch of batches)` in `sync`: post the batch.
On a transport-level reply, `processBatch` first applies the conflict
writes, then each processed item is handled; on a thrown transport
failure the whole batch is counted failed and each item is routed
through `handleSyncError` with an error entry pushed. -/
def syncBatch (transport : List SyncQueueItem → Except String BatchSyncResponse)
    (now : Nat) (acc : SyncAccum) (batch : List SyncQueueItem) : SyncAccum :=
  match transport batch with
  | Except.ok resp =>
    let db1 := applyConflicts acc.db resp
    resp.processed_items.foldl (handleOutcome now batch) { acc with db := db1 }
  | Except.error e =>
    let acc1 := { acc with failed := acc.failed + batch.length }
    batch.foldl (failStep now e) acc1

/-- `SyncService.sync`: drain the queue, batch it by `SYNC_BATCH_SIZE`,
process every batch in order, and return the summary together with the
final database state. `now` stands for the `new Date()` stamps taken
during the pass. -/
def sync (transport : List SyncQueueItem → Except String BatchSyncResponse)
    (batchSize now : Nat) (db : DB) : SyncResult × DB :=
  let queueItems := drain db
  let batches := chunks batchSize queueItems
  let acc := batches.foldl (syncBatch transport now)
    { db := db, synced := 0, failed := 0, errors := [] }
  ({ success := acc.failed == 0, synced_items := acc.synced,
     failed_items := acc.failed, errors := acc.errors }, acc.db)

/-- Number of outcome slots one batch contributes to the pass summary:
the batch size on transport failure, the number of processed items the
server reports otherwise. -/
def weight (transport : List SyncQueueItem → Except String BatchSyncResponse)
    (batch : List SyncQueueItem) : Nat :=
  match transport batch with
  | Except.ok resp => resp.processed_items.length
  | Except.error _ => batch.length

/-! ## Concrete fixtures for witnesses and counterexamples -/

/-- A live, locally modified task. -/
def sampleTask : Task :=
  { id := "t1", title := "local", description := none, completed := false,
    created_at := 0, updated_at := 10, is_deleted := false,
    sync_status := "pending", server_id := none, last_synced_at := none }

/-- A soft-deleted task row. -/
def sampleGone : Task :=
  { id := "t9", title := "gone", description := none, completed := false,
    created_at := 0, updated_at := 4, is_deleted := true,
    sync_status := "pending", server_id := none, last_synced_at := none }

/-- A queued update for `sampleTask`, no attempts yet. -/
def sampleItem : SyncQueueItem :=
  { id := "q1", task_id := "t1", operation := "update",
    created_at := 1, retry_count := 0, error_message := none }

/-- A second queued update for the same task. -/
def sampleItem2 : SyncQueueItem :=
  { id := "q2", task_id := "t1", operation := "update",
    created_at := 2, retry_count := 0, error_message := none }

/-- A queued create for a different task. -/
def sampleItem3 : SyncQueueItem :=
  { id := "q3", task_id := "t2", operation := "create",
    created_at := 3, retry_count := 0, error_message := none }

/-- Resolved data reported by the authority, with a modification stamp
strictly earlier than `sampleTask.updated_at`. -/
def sampleResolved : ResolvedData :=
  { title := "authority", description := some "srv", completed := true,
    updated_at := 5, server_id := none }

/-- The database state after `sampleItem`, already at two attempts,
fails for the third consecutive time. -/
def afterThirdFailure : DB :=
  handleSyncError
    { tasks := [sampleTask],
      sync_queue := [{ sampleItem with retry_count := 2 }] }
    { sampleItem with retry_count := 2 } "network down"

/-! ## Claims -/

/-- Claim C1 (code bug): the spec requires that once an item's attempt
count reaches the ceiling of 3 the record's sync state becomes the
terminal `failed` and no further automatic attempt is made. The code's
own comment says it will "mark as permanent failure", yet it writes the
retriable state `error` — the very state `getTasksNeedingSync` treats as
needing sync — and the next pass drains the item again: at the failing
input (an item with two prior attempts failing a third time) the record
ends in state `error`, not `failed`, the item is still returned by the
next drain, and one more failing pass pushes its attempt count to 4. -/
theorem c1_retry_ceiling_behavior :
    afterThirdFailure.tasks.map (fun t => t.sync_status) = ["error"]
    ∧ ¬ afterThirdFailure.tasks.map (fun t => t.sync_status) = ["failed"]
    ∧ drain afterThirdFailure =
        [{ sampleItem with retry_count := 3, error_message := some "network down" }]
    ∧ (sync (fun _ => Except.error "again") 50 9 afterThirdFailure).snd.sync_queue.map
        (fun q => q.retry_count) = [4] := by decide

/-- Claim C2, counterexample: a transport-level batch failure on an item
with attempt count 0 (below the ceiling) increments the count and records
the error, but leaves the originating record's sync state at `pending`,
not `error` as the claim states. -/
theorem c2_counterexample :
    let out := sync (fun _ => Except.error "network down") 50 9
      { tasks := [sampleTask], sync_queue := [sampleItem] }
    out.snd.sync_queue.map (fun q => (q.retry_count, q.error_message))
      = [(1, some "network down")]
    ∧ out.snd.tasks.map (fun t => t.sync_status) = ["pending"]
    ∧ ¬ out.snd.tasks.map (fun t => t.sync_status) = ["error"] := by decide

/-- Claim C3, counterexample: a `conflict` outcome does apply the
authority's resolved data to the record store, but the pass then counts
the item as failed, sets the record's sync state to `error` (not
`synced`), and leaves the queue entry in place. -/
theorem c3_counterexample :
    let out := sync (fun _ => Except.ok { processed_items :=
        [{ client_id := "t1", server_id := some "s1", status := "conflict",
           resolved_data := some sampleResolved, error := none }] }) 50 9
      { tasks := [sampleTask], sync_queue := [sampleItem] }
    out.snd.tasks.map (fun t => (t.title, t.sync_status)) = [("authority", "error")]
    ∧ out.fst.failed_items = 1
    ∧ out.fst.synced_items = 0
    ∧ out.snd.sync_queue = [sampleItem] := by decide

/-- Claim C4, counterexample: the local payload's modification stamp (10)
is strictly later than the authority's (5), so under last-write-wins the
local side should win; the code nevertheless overwrites the record with
the authority's fields — no timestamp comparison is performed. -/
theorem c4_counterexample :
    let db1 := applyConflicts { tasks := [sampleTask], sync_queue := [sampleItem] }
      { processed_items :=
          [{ client_id := "t1", server_id := some "s1", status := "conflict",
             resolved_data := some sampleResolved, error := none }] }
    sampleResolved.updated_at < sampleTask.updated_at
    ∧ db1.tasks.map (fun t => (t.title, t.updated_at)) = [("authority", 5)]
    ∧ ¬ db1.tasks.map (fun t => t.title) = [sampleTask.title] := by decide

/-- Claim C5, counterexample: the queue holds two distinct items for the
same record (and one for another record); a single `success` outcome for
that record removes BOTH of its queue items — the deletion is keyed by
`task_id`, not by the item's own id — leaving only the other record's
item, where the claim predicts the second item of the record to stay. -/
theorem c5_counterexample :
    let db1 := updateSyncStatus
      { tasks := [sampleTask], sync_queue := [sampleItem, sampleItem2, sampleItem3] }
      "t1" "synced" none 7
    ¬ sampleItem.id = sampleItem2.id
    ∧ db1.sync_queue = [sampleItem3]
    ∧ ¬ db1.sync_queue.length = 2 := by decide

/-- Claim C2 (amended): two distinct failure paths exist. On a
transport-level batch failure below the retry ceiling the queue item
remains (queue length unchanged) with its attempt count incremented by
one and the error message recorded, but the record store is left
completely untouched — the record's sync state does not become `error`.
On a per-item authority-reported error the record's sync state becomes
`error` (with the last-synced stamp set), while the queue is untouched:
no attempt-count increment and no recorded message. -/
theorem c2_amended_retry_effects (db : DB) (item : SyncQueueItem)
    (e : String) (tid : String) (now : Nat)
    (hceil : item.retry_count + 1 < 3) (hmem : item ∈ db.sync_queue) :
    ((handleSyncError db item e).tasks = db.tasks
      ∧ { item with retry_count := item.retry_count + 1,
                    error_message := some e }
          ∈ (handleSyncError db item e).sync_queue
      ∧ (handleSyncError db item e).sync_queue.length = db.sync_queue.length)
    ∧ ((updateSyncStatus db tid "error" none now).sync_queue = db.sync_queue
      ∧ ∀ t ∈ db.tasks, t.id = tid →
          { t with sync_status := "error", last_synced_at := some now }
            ∈ (updateSyncStatus db tid "error" none now).tasks) := by
  have h3 : ¬ (3 ≤ item.retry_count + 1) := by omega
  refine ⟨⟨?_, ?_, ?_⟩, ?_, ?_⟩
  · simp [handleSyncError, h3]
  · have hm := List.mem_map_of_mem
      (f := fun q => if q.id == item.id then
        { q with retry_count := item.retry_count + 1,
                 error_message := some e } else q) hmem
    simpa [handleSyncError] using hm
  · simp [handleSyncError]
  · simp [updateSyncStatus]
  · intro t ht hid
    have hm := List.mem_map_of_mem
      (f := fun r => if r.id == tid then
        { r with sync_status := "error", last_synced_at := some now }
        else r) ht
    simpa [updateSyncStatus, hid] using hm

/-- Witness for C2 (amended) at concrete inputs. -/
theorem c2_amended_witness :
    (handleSyncError { tasks := [sampleTask], sync_queue := [sampleItem] }
        sampleItem "boom").tasks = [sampleTask]
    ∧ { sampleItem with retry_count := 1, error_message := some "boom" }
        ∈ (handleSyncError { tasks := [sampleTask], sync_queue := [sampleItem] }
            sampleItem "boom").sync_queue
    ∧ { sampleTask with sync_status := "error", last_synced_at := some 7 }
        ∈ (updateSyncStatus { tasks := [sampleTask], sync_queue := [sampleItem] }
            "t1" "error" none 7).tasks := by
  have h := c2_amended_retry_effects
    { tasks := [sampleTask], sync_queue := [sampleItem] }
    sampleItem "boom" "t1" 7 (by decide) (by decide)
  exact ⟨h.1.1, h.1.2.1, h.2.2 sampleTask (by decide) (by decide)⟩

/-- Claim C4 (amended): for every conflict outcome carrying resolved
data, the stored record takes the authority's resolved fields wholesale
(title, description, completion flag, modification stamp, and the
reported remote id) — regardless of whether the local or the authority
modification timestamp is later, with no field-by-field merge; the
outcome is deterministic, being a pure function of the inputs. -/
theorem c4_amended_authority_wins (db : DB) (pi : ProcessedItem)
    (rd : ResolvedData) (t : Task)
    (hs : pi.status = "conflict") (hr : pi.resolved_data = some rd)
    (ht : t ∈ db.tasks) (hid : t.id = pi.client_id) :
    { t with title := rd.title, description := rd.description,
             completed := rd.completed, updated_at := rd.updated_at,
             server_id := pi.server_id }
      ∈ (applyConflicts db { processed_items := [pi] }).tasks := by
  have hm := List.mem_map_of_mem
    (f := fun x => if x.id == pi.client_id then
      { x with title := rd.title, description := rd.description,
               completed := rd.completed, updated_at := rd.updated_at,
               server_id := pi.server_id } else x) ht
  simpa [applyConflicts, hs, hr, hid] using hm

/-- Witness for C4 (amended) at concrete inputs. -/
theorem c4_amended_witness :
    { sampleTask with title := sampleResolved.title,
                      description := sampleResolved.description,
                      completed := sampleResolved.completed,
                      updated_at := sampleResolved.updated_at,
                      server_id := some "s1" }
      ∈ (applyConflicts { tasks := [sampleTask], sync_queue := [sampleItem] }
          { processed_items :=
              [{ client_id := "t1", server_id := some "s1",
                 status := "conflict", resolved_data := some sampleResolved,
                 error := none }] }).tasks :=
  c4_amended_authority_wins
    { tasks := [sampleTask], sync_queue := [sampleItem] }
    { client_id := "t1", server_id := some "s1", status := "conflict",
      resolved_data := some sampleResolved, error := none }
    sampleResolved sampleTask rfl rfl (by decide) rfl

/-- Claim C5 (amended): on a `success` outcome the record's sync state
becomes `synced` with the last-synced stamp set and the remote id
recorded when the server data carries one, and every queue item whose
`task_id` equals the record's is removed — not only the corresponding
item — while queue items of other records and rows of other tasks are
left unchanged. -/
theorem c5_amended_success_effects (db : DB) (tid : String)
    (sd : Option ResolvedData) (now : Nat) :
    ((updateSyncStatus db tid "synced" sd now).sync_queue
      = db.sync_queue.filter (fun q => !(q.task_id == tid)))
    ∧ (∀ t ∈ db.tasks, ¬ t.id = tid →
        t ∈ (updateSyncStatus db tid "synced" sd now).tasks)
    ∧ (∀ t ∈ (updateSyncStatus db tid "synced" sd now).tasks, t.id = tid →
        t.sync_status = "synced" ∧ t.last_synced_at = some now)
    ∧ (∀ t ∈ db.tasks, t.id = tid → ∀ s sid2, sd = some s →
        s.server_id = some sid2 →
        { t with sync_status := "synced", last_synced_at := some now,
                 server_id := some sid2 }
          ∈ (updateSyncStatus db tid "synced" sd now).tasks) := by
  refine ⟨?_, ?_, ?_, ?_⟩
  · simp [updateSyncStatus]
  · intro t ht hne
    have h1 : t ∈ db.tasks.map (fun r => if r.id == tid then
        { r with sync_status := "synced", last_synced_at := some now }
        else r) := by
      simpa [hne] using List.mem_map_of_mem
        (f := fun r => if r.id == tid then
          { r with sync_status := "synced", last_synced_at := some now }
          else r) ht
    rcases sd with _ | s
    · simpa [updateSyncStatus] using h1
    · rcases hsid : s.server_id with _ | sid2
      · simpa [updateSyncStatus, hsid] using h1
      · have h2 := List.mem_map_of_mem
          (f := fun r => if r.id == tid then { r with server_id := some sid2 }
            else r) h1
        simpa [updateSyncStatus, hsid, hne] using h2
  · intro t ht hid
    rcases sd with _ | s
    · simp only [updateSyncStatus] at ht
      rcases List.mem_map.mp ht with ⟨r, hr, rfl⟩
      by_cases h : r.id == tid
      · simp [h]
      · simp only [h, if_neg, Bool.false_eq_true, ite_false] at hid ⊢
        exact absurd hid (by simpa using h)
    · rcases hsid : s.server_id with _ | sid2
      · simp only [updateSyncStatus, hsid] at ht
        rcases List.mem_map.mp ht with ⟨r, hr, rfl⟩
        by_cases h : r.id == tid
        · simp [h]
        · simp only [h, Bool.false_eq_true, ite_false] at hid ⊢
          exact absurd hid (by simpa using h)
      · simp only [updateSyncStatus, hsid] at ht
        rcases List.mem_map.mp ht with ⟨r1, hr1, rfl⟩
        rcases List.mem_map.mp hr1 with ⟨r, hr, rfl⟩
        by_cases h : r.id == tid
        · simp [h]
        · simp only [h, Bool.false_eq_true, ite_false] at hid ⊢
          exact absurd hid (by simpa using h)
  · intro t ht hid s sid2 hsd hsid
    subst hsd
    have h1 : ({ t with sync_status := "synced", last_synced_at := some now }
        : Task) ∈ db.tasks.map (fun r => if r.id == tid then
          { r with sync_status := "synced", last_synced_at := some now }
          else r) := by
      simpa [hid] using List.mem_map_of_mem
        (f := fun r => if r.id == tid then
          { r with sync_status := "synced", last_synced_at := some now }
          else r) ht
    have h2 := List.mem_map_of_mem
      (f := fun r => if r.id == tid then { r with server_id := some sid2 }
        else r) h1
    simpa [updateSyncStatus, hsid, hid] using h2

/-- Witness for C5 (amended) at concrete inputs. -/
theorem c5_amended_witness :
    (updateSyncStatus
        { tasks := [sampleTask],
          sync_queue := [sampleItem, sampleItem2, sampleItem3] }
        "t1" "synced" none 7).sync_queue
      = [sampleItem, sampleItem2, sampleItem3].filter
          (fun q => !(q.task_id == "t1"))
    ∧ { sampleTask with sync_status := "synced", last_synced_at := some 7,
                        server_id := some "s7" }
        ∈ (updateSyncStatus { tasks := [sampleTask], sync_queue := [] }
            "t1" "synced" (some { sampleResolved with server_id := some "s7" })
            7).tasks := by
  have h1 := c5_amended_success_effects
    { tasks := [sampleTask], sync_queue := [sampleItem, sampleItem2, sampleItem3] }
    "t1" none 7
  have h2 := c5_amended_success_effects
    { tasks := [sampleTask], sync_queue := [] }
    "t1" (some { sampleResolved with server_id := some "s7" }) 7
  exact ⟨h1.1, h2.2.2.2 sampleTask (by decide) rfl
    { sampleResolved with server_id := some "s7" } "s7" rfl rfl⟩

/-- Claim C3 (amended): on a `conflict` outcome the pass does apply the
authority's resolved data to the record store, but then treats the item
exactly as a failure: it is counted in the failed total with an error
entry pushed, the record's sync state is set to `error` (not `synced`),
and the queue entry is left in place rather than removed. Stated for a
pass over one queued item whose transport reports `conflict`. -/
theorem c3_amended_conflict_handling (t : Task) (q : SyncQueueItem)
    (rd : ResolvedData) (sid : Option String) (e : Option String) (now : Nat)
    (h : q.task_id = t.id) :
    sync (fun _ => Except.ok { processed_items :=
        [{ client_id := t.id, server_id := sid, status := "conflict",
           resolved_data := some rd, error := e }] }) 1 now
      { tasks := [t], sync_queue := [q] }
      = ({ success := false, synced_items := 0, failed_items := 1,
           errors := [{ task_id := t.id, operation := q.operation,
                        error := e.getD "Unknown error", timestamp := now }] },
         { tasks := [{ t with
                       title := rd.title,
                       description := rd.description,
                       completed := rd.completed,
                       updated_at := rd.updated_at,
                       server_id := sid, sync_status := "error",
                       last_synced_at := some now }],
           sync_queue := [q] }) := by
  simp [sync, drain, chunks, chunksAux, syncBatch, applyConflicts,
        handleOutcome, updateSyncStatus, leByCreated, h]

/-- Witness for C3 (amended) at concrete inputs. -/
theorem c3_amended_witness :
    sync (fun _ => Except.ok { processed_items :=
        [{ client_id := sampleTask.id, server_id := some "s1",
           status := "conflict", resolved_data := some sampleResolved,
           error := none }] }) 1 9
      { tasks := [sampleTask], sync_queue := [sampleItem] }
      = ({ success := false, synced_items := 0, failed_items := 1,
           errors := [{ task_id := sampleTask.id,
                        operation := sampleItem.operation,
                        error := (none : Option String).getD "Unknown error",
                        timestamp := 9 }] },
         { tasks := [{ sampleTask with
                       title := sampleResolved.title,
                       description := sampleResolved.description,
                       completed := sampleResolved.completed,
                       updated_at := sampleResolved.updated_at,
                       server_id := some "s1", sync_status := "error",
                       last_synced_at := some 9 }],
           sync_queue := [sampleItem] }) :=
  c3_amended_conflict_handling sampleTask sampleItem sampleResolved
    (some "s1") none 9 rfl

/-- `chunksAux` of an empty list is empty, whatever the fuel. -/
theorem chunksAux_nil (n : Nat) : ∀ fuel : Nat, chunksAux n fuel [] = []
  | 0 => rfl
  | _ + 1 => rfl

/-- With enough fuel and a positive size, the chunks concatenate back to
the input list. -/
theorem chunksAux_join (n : Nat) (hn : 0 < n) :
    ∀ (fuel : Nat) (l : List SyncQueueItem), l.length ≤ fuel →
      (chunksAux n fuel l).flatten = l := by
  intro fuel
  induction fuel with
  | zero =>
    intro l hl
    have : l = [] := List.eq_nil_of_length_eq_zero (Nat.le_zero.mp hl)
    subst this
    rfl
  | succ fuel ih =>
    intro l hl
    cases l with
    | nil => rfl
    | cons x xs =>
      show (List.take n (x :: xs) :: chunksAux n fuel (List.drop n (x :: xs))).flatten
        = x :: xs
      rw [List.flatten_cons, ih (List.drop n (x :: xs))
        (by rw [List.length_drop]; omega)]
      exact List.take_append_drop n (x :: xs)

/-- Every chunk is nonempty and no longer than the batch size. -/
theorem chunksAux_sizes (n : Nat) (hn : 0 < n) :
    ∀ (fuel : Nat) (l : List SyncQueueItem),
      ∀ c ∈ chunksAux n fuel l, c ≠ [] ∧ c.length ≤ n := by
  intro fuel
  induction fuel with
  | zero => intro l c hc; exact absurd hc (by simp [chunksAux])
  | succ fuel ih =>
    intro l c hc
    cases l with
    | nil => exact absurd hc (by simp [chunksAux])
    | cons x xs =>
      simp only [chunksAux] at hc
      rcases List.mem_cons.mp hc with hc | hc
      · subst hc
        constructor
        · intro h0
          rcases List.take_eq_nil_iff.mp h0 with h0 | h0
          · omega
          · exact List.cons_ne_nil x xs h0
        · exact List.length_take_le n (x :: xs)
      · exact ih (List.drop n (x :: xs)) c hc

/-- Every chunk except possibly the last has length exactly the batch
size. -/
theorem chunksAux_full (n : Nat) :
    ∀ (fuel : Nat) (l : List SyncQueueItem),
      ∀ c ∈ (chunksAux n fuel l).dropLast, c.length = n := by
  intro fuel
  induction fuel with
  | zero => intro l c hc; exact absurd hc (by simp [chunksAux])
  | succ fuel ih =>
    intro l c hc
    cases l with
    | nil => exact absurd hc (by simp [chunksAux])
    | cons x xs =>
      simp only [chunksAux] at hc
      rcases hrest : chunksAux n fuel (List.drop n (x :: xs)) with _ | ⟨r, rs⟩
      · rw [hrest] at hc
        simp at hc
      · rw [hrest, List.dropLast_cons₂] at hc
        rcases List.mem_cons.mp hc with hc2 | hc2
        · have hne : List.drop n (x :: xs) ≠ [] := by
            intro hdrop
            rw [hdrop, chunksAux_nil] at hrest
            exact (List.cons_ne_nil r rs) hrest.symm
          have hlen : n < (x :: xs).length := by
            by_contra hge
            exact hne (List.drop_eq_nil_of_le (by omega))
          subst hc2
          rw [List.length_take]
          exact Nat.min_eq_left (Nat.le_of_lt hlen)
        · exact ih (List.drop n (x :: xs)) c (by rw [hrest]; exact hc2)

/-- Claim C6: for a positive batch size the batcher splits the ordered
sequence into contiguous groups of at most `batchSize` items whose
concatenation is exactly the input (so order is preserved within and
across groups), and only the last group may be smaller. -/
theorem c6_batcher_partition (n : Nat) (l : List SyncQueueItem)
    (hn : 0 < n) :
    (chunks n l).flatten = l
    ∧ (∀ c ∈ chunks n l, c ≠ [] ∧ c.length ≤ n)
    ∧ (∀ c ∈ (chunks n l).dropLast, c.length = n) :=
  ⟨chunksAux_join n hn l.length l (Nat.le_refl _),
   fun c hc => chunksAux_sizes n hn l.length l c hc,
   fun c hc => chunksAux_full n l.length l c hc⟩

/-- Witness for C6 at a concrete input: batch size 2 over three items. -/
theorem c6_batcher_witness :
    0 < 2
    ∧ (chunks 2 [sampleItem, sampleItem2, sampleItem3]).flatten
        = [sampleItem, sampleItem2, sampleItem3] :=
  ⟨by decide,
   (c6_batcher_partition 2 [sampleItem, sampleItem2, sampleItem3]
     (by decide)).1⟩

/-- Inserting an element into a list interacts with filtering by an
exact timestamp: elements passed over have strictly smaller stamps, so
the filtered projection either gains the element at its front (when its
stamp matches) or is unchanged. -/
theorem filter_orderedInsert (ts : Nat) (a : SyncQueueItem)
    (l : List SyncQueueItem) :
    (List.orderedInsert leByCreated a l).filter (fun q => q.created_at == ts)
    = if a.created_at == ts
      then a :: l.filter (fun q => q.created_at == ts)
      else l.filter (fun q => q.created_at == ts) := by
  induction l with
  | nil =>
    by_cases h : a.created_at == ts <;>
      simp [List.orderedInsert, List.filter, h]
  | cons b l ih =>
    by_cases hab : leByCreated a b
    · rw [List.orderedInsert_of_le _ _ hab]
      by_cases h : a.created_at == ts <;> simp [List.filter_cons, h]
    · have hins : List.orderedInsert leByCreated a (b :: l)
          = b :: List.orderedInsert leByCreated a l := by
        simp [List.orderedInsert, hab]
      rw [hins, List.filter_cons, ih]
      by_cases ha : a.created_at == ts
      · have hb : (b.created_at == ts) = false := by
          have hlt : b.created_at < a.created_at := by
            unfold leByCreated at hab
            omega
          have ha2 : a.created_at = ts := by simpa using ha
          simp only [beq_eq_false_iff_ne]
          omega
        simp [ha, hb, List.filter_cons]
      · simp [ha, List.filter_cons]

/-- The stable sort behind `drain` never reorders items sharing an
enqueue timestamp: filtering any exact timestamp class out of the sorted
list yields that class in original insertion order. -/
theorem filter_insertionSort (ts : Nat) (l : List SyncQueueItem) :
    (List.insertionSort leByCreated l).filter (fun q => q.created_at == ts)
    = l.filter (fun q => q.created_at == ts) := by
  induction l with
  | nil => rfl
  | cons x l ih =>
    show (List.orderedInsert leByCreated x
      (List.insertionSort leByCreated l)).filter _ = _
    rw [filter_orderedInsert, ih, List.filter_cons]

/-- Claim C7: `drain` returns every queue item (a permutation — nothing
is removed), in non-decreasing enqueue-timestamp order, with timestamp
ties left in insertion-sequence order; and removal is a separate
operation tied to confirmed success: `updateSyncStatus` with any status
other than `synced` leaves the queue untouched. -/
theorem c7_drain_spec (db : DB) :
    List.Perm (drain db) db.sync_queue
    ∧ List.Sorted leByCreated (drain db)
    ∧ (∀ ts : Nat, (drain db).filter (fun q => q.created_at == ts)
        = db.sync_queue.filter (fun q => q.created_at == ts))
    ∧ (∀ tid status sd now, ¬ status = "synced" →
        (updateSyncStatus db tid status sd now).sync_queue
          = db.sync_queue) := by
  refine ⟨List.perm_insertionSort leByCreated db.sync_queue,
    List.sorted_insertionSort leByCreated db.sync_queue,
    fun ts => filter_insertionSort ts db.sync_queue, ?_⟩
  intro tid status sd now hst
  have hb : (status == "synced") = false := beq_eq_false_iff_ne.mpr hst
  simp [updateSyncStatus, hb]

/-- Witness for C7 at concrete inputs (two items sharing no stamp, and a
non-synced status update). -/
theorem c7_drain_witness :
    ((drain { tasks := [sampleTask], sync_queue := [sampleItem2, sampleItem] }).filter
        (fun q => q.created_at == 1)
      = [sampleItem2, sampleItem].filter (fun q => q.created_at == 1))
    ∧ (updateSyncStatus { tasks := [sampleTask], sync_queue := [sampleItem] }
        "t1" "error" none 5).sync_queue = [sampleItem] := by
  have h1 := c7_drain_spec
    { tasks := [sampleTask], sync_queue := [sampleItem2, sampleItem] }
  have h2 := c7_drain_spec { tasks := [sampleTask], sync_queue := [sampleItem] }
  exact ⟨h1.2.2.1 1, h2.2.2.2 "t1" "error" none 5 (by decide)⟩

/-- Folding the per-item handler adds exactly one outcome per processed
item to the synced/failed totals and keeps the error list in step with
the failed total. -/
theorem foldl_handleOutcome_counts (now : Nat) (batch : List SyncQueueItem) :
    ∀ (ps : List ProcessedItem) (acc : SyncAccum),
      ((ps.foldl (handleOutcome now batch) acc).synced
          + (ps.foldl (handleOutcome now batch) acc).failed
        = acc.synced + acc.failed + ps.length)
      ∧ ((ps.foldl (handleOutcome now batch) acc).errors.length + acc.failed
        = acc.errors.length + (ps.foldl (handleOutcome now batch) acc).failed) := by
  intro ps
  induction ps with
  | nil => intro acc; simp
  | cons p ps ih =>
    intro acc
    have hstep :
        (handleOutcome now batch acc p).synced
            + (handleOutcome now batch acc p).failed
          = acc.synced + acc.failed + 1
        ∧ (handleOutcome now batch acc p).errors.length + acc.failed
          = acc.errors.length + (handleOutcome now batch acc p).failed := by
      unfold handleOutcome
      by_cases h : p.status == "success" <;> simp [h] <;> omega
    have h2 := ih (handleOutcome now batch acc p)
    rw [List.foldl_cons]
    constructor
    · have a1 := h2.1
      have a2 := hstep.1
      simp only [List.length_cons]
      omega
    · have b1 := h2.2
      have b2 := hstep.2
      omega

/-- Folding the catch-branch step changes neither total but pushes one
error entry per item. -/
theorem foldl_failStep_counts (now : Nat) (e : String) :
    ∀ (batch : List SyncQueueItem) (acc : SyncAccum),
      ((batch.foldl (failStep now e) acc).synced = acc.synced)
      ∧ ((batch.foldl (failStep now e) acc).failed = acc.failed)
      ∧ ((batch.foldl (failStep now e) acc).errors.length
        = acc.errors.length + batch.length) := by
  intro batch
  induction batch with
  | nil => intro acc; simp
  | cons it batch ih =>
    intro acc
    rw [List.foldl_cons]
    have h2 := ih (failStep now e acc it)
    refine ⟨?_, ?_, ?_⟩
    · rw [h2.1]
      rfl
    · rw [h2.2.1]
      rfl
    · rw [h2.2.2]
      simp [failStep]
      omega

/-- One batch contributes exactly its `weight` to the outcome totals,
whether the transport succeeds or throws. -/
theorem syncBatch_counts
    (tr : List SyncQueueItem → Except String BatchSyncResponse)
    (now : Nat) (acc : SyncAccum) (batch : List SyncQueueItem) :
    ((syncBatch tr now acc batch).synced + (syncBatch tr now acc batch).failed
      = acc.synced + acc.failed + weight tr batch)
    ∧ ((syncBatch tr now acc batch).errors.length + acc.failed
      = acc.errors.length + (syncBatch tr now acc batch).failed) := by
  unfold syncBatch weight
  cases htr : tr batch with
  | ok resp =>
    have h := foldl_handleOutcome_counts now batch resp.processed_items
      { acc with db := applyConflicts acc.db resp }
    simpa using h
  | error e =>
    have h := foldl_failStep_counts now e batch
      { acc with failed := acc.failed + batch.length }
    constructor
    · rw [h.1, h.2.1]
      show acc.synced + (acc.failed + batch.length)
        = acc.synced + acc.failed + batch.length
      omega
    · rw [h.2.2, h.2.1]
      show acc.errors.length + batch.length + acc.failed
        = acc.errors.length + (acc.failed + batch.length)
      omega

/-- Folding over all batches: the totals account for every batch of the
pass — no batch is skipped after an earlier failure — and the error list
stays in step with the failed total. -/
theorem foldl_syncBatch_counts
    (tr : List SyncQueueItem → Except String BatchSyncResponse) (now : Nat) :
    ∀ (bs : List (List SyncQueueItem)) (acc : SyncAccum),
      ((bs.foldl (syncBatch tr now) acc).synced
          + (bs.foldl (syncBatch tr now) acc).failed
        = acc.synced + acc.failed + (bs.map (weight tr)).sum)
      ∧ ((bs.foldl (syncBatch tr now) acc).errors.length + acc.failed
        = acc.errors.length + (bs.foldl (syncBatch tr now) acc).failed) := by
  intro bs
  induction bs with
  | nil => intro acc; simp
  | cons b bs ih =>
    intro acc
    rw [List.foldl_cons]
    have h1 := syncBatch_counts tr now acc b
    have h2 := ih (syncBatch tr now acc b)
    constructor
    · have a1 := h1.1
      have a2 := h2.1
      simp only [List.map_cons, List.sum_cons]
      omega
    · have b1 := h1.2
      have b2 := h2.2
      omega

/-- Claim C8: a sync pass runs to completion and returns a summary for
every input: the synced and failed totals account for every batch of the
drained queue (a transport failure in one batch contributes that batch's
items and the pass proceeds to the next), one error entry exists per
failed item, and the summary's success flag holds exactly when nothing
failed. As a total Lean function of its inputs, `sync` never throws:
partial failure is reported, not raised. -/
theorem c8_sync_completes
    (tr : List SyncQueueItem → Except String BatchSyncResponse)
    (n now : Nat) (db : DB) :
    ((sync tr n now db).fst.synced_items + (sync tr n now db).fst.failed_items
      = ((chunks n (drain db)).map (weight tr)).sum)
    ∧ ((sync tr n now db).fst.errors.length
      = (sync tr n now db).fst.failed_items)
    ∧ ((sync tr n now db).fst.success = true
      ↔ (sync tr n now db).fst.failed_items = 0) := by
  have h := foldl_syncBatch_counts tr now (chunks n (drain db))
    { db := db, synced := 0, failed := 0, errors := [] }
  unfold sync
  refine ⟨by simpa using h.1, by simpa using h.2, by simp⟩

/-- Witness for C8 at a concrete input (three items, batch size two,
transport failing wholesale). -/
theorem c8_sync_witness :
    (sync (fun _ => Except.error "down") 2 9
        { tasks := [sampleTask],
          sync_queue := [sampleItem, sampleItem2, sampleItem3] }).fst.errors.length
      = (sync (fun _ => Except.error "down") 2 9
        { tasks := [sampleTask],
          sync_queue := [sampleItem, sampleItem2, sampleItem3] }).fst.failed_items :=
  (c8_sync_completes (fun _ => Except.error "down") 2 9
    { tasks := [sampleTask],
      sync_queue := [sampleItem, sampleItem2, sampleItem3] }).2.1

/-- Claim C9: a soft-deleted record is excluded from the normal read
paths — `getTask` on its identifier yields the not-found result and it
never appears in `getAllTasks` — while deletion itself only flips the
flag: `deleteTask` of a live task keeps the table's length and keeps a
row with that identifier (now flagged) in the store. -/
theorem c9_soft_delete_invariant (db : DB) (i : String) (t : Task)
    (hfind : db.tasks.find? (fun r => r.id == i) = some t)
    (hdel : t.is_deleted = true) :
    getTask db i = none
    ∧ t ∉ getAllTasks db
    ∧ (∀ j u now qid,
        db.tasks.find? (fun r => r.id == j && !r.is_deleted) = some u →
        (deleteTask db j now qid).fst = true
        ∧ (deleteTask db j now qid).snd.tasks.length = db.tasks.length
        ∧ { u with is_deleted := true, updated_at := now,
                   sync_status := "pending" }
            ∈ (deleteTask db j now qid).snd.tasks) := by
  refine ⟨?_, ?_, ?_⟩
  · unfold getTask
    rw [hfind]
    simp [hdel]
  · intro hmem
    have hkeep := List.of_mem_filter hmem
    simp [hdel] at hkeep
  · intro j u now qid hu
    have hid : (u.id == j) = true := by
      have hp := List.find?_some hu
      simp only [Bool.and_eq_true] at hp
      exact hp.1
    refine ⟨?_, ?_, ?_⟩
    · unfold deleteTask
      rw [hu]
    · unfold deleteTask
      rw [hu]
      simp
    · unfold deleteTask
      rw [hu]
      have hm := List.mem_map_of_mem
        (f := fun r => if r.id == j then
          { r with is_deleted := true, updated_at := now,
                   sync_status := "pending" } else r)
        (List.mem_of_find?_eq_some hu)
      simpa [hid] using hm

/-- Witness for C9 at concrete inputs: a store holding one soft-deleted
and one live row. -/
theorem c9_soft_delete_witness :
    getTask { tasks := [sampleGone, sampleTask], sync_queue := [] } "t9" = none
    ∧ (deleteTask { tasks := [sampleGone, sampleTask], sync_queue := [] }
        "t1" 5 "q9").fst = true := by
  have h := c9_soft_delete_invariant
    { tasks := [sampleGone, sampleTask], sync_queue := [] } "t9" sampleGone
    (by decide) (by decide)
  exact ⟨h.1, (h.2.2 "t1" sampleTask 5 "q9" (by decide)).1⟩

/-- Claim C10: when the identifier names no existing non-deleted task,
`updateTask` returns null and `deleteTask` returns false, and in both
cases the whole database — tasks table and sync queue — is returned
unchanged, with nothing enqueued. -/
theorem c10_not_found_noop (db : DB) (i : String) (u : TaskUpdates)
    (now : Nat) (qid : String)
    (h : db.tasks.find? (fun t => t.id == i && !t.is_deleted) = none) :
    updateTask db i u now qid = (none, db)
    ∧ deleteTask db i now qid = (false, db) := by
  constructor
  · unfold updateTask
    rw [h]
  · unfold deleteTask
    rw [h]

/-- Witness for C10 at a concrete input: the store holds only a
soft-deleted row with that identifier. -/
theorem c10_witness :
    updateTask { tasks := [sampleGone], sync_queue := [] } "t9"
        { title := some "x", description := none, completed := none } 5 "q9"
      = (none, { tasks := [sampleGone], sync_queue := [] })
    ∧ deleteTask { tasks := [sampleGone], sync_queue := [] } "t9" 5 "q9"
      = (false, { tasks := [sampleGone], sync_queue := [] }) :=
  c10_not_found_noop { tasks := [sampleGone], sync_queue := [] } "t9"
    { title := some "x", description := none, completed := none } 5 "q9"
    (by decide)

end TaskSync
